import Mathlib

/-!
Verification of the notebook
`tutorials/circuits_advanced/12_pulse_simulator_backend_model.ipynb`.

The notebook is glue code: a linear sequence of assignments and calls into
an external pulse-simulation library (qiskit).  We embed its executable
content in two complementary ways:

1. A deep embedding of the code cells as a small Python statement language
   (`PyExpr` / `PyStmt`), translated statement by statement from the
   notebook source.  Claims about call order, arguments, dataflow, and the
   absence of error handling or concurrency constructs are settled over
   this embedding.

2. A state model of the mutable mock-backend object (`FakeArmonkBackend`)
   together with an observation semantics that executes the embedded
   statements, used for the frame-effect and consistency claims about the
   Hamiltonian/dt override.

Numeric literals are represented exactly as rationals; the symbolic value
`2 * np.pi * freq_est` is kept symbolic (`NumVal`), mirroring the source
expression.
-/

mutual

/-- Expressions of the fragment of Python the notebook uses.  `PyExprList`
and `PyKwList` are inlined list types for positional arguments and keyword
arguments, so that the mutual recursion stays structural. -/
inductive PyExpr : Type where
  | var (name : String)
  | num (q : ℚ)
  | str (s : String)
  | binOp (op : String) (a b : PyExpr)
  | listLit (elems : PyExprList)
  | dictLit (entries : PyKwList)
  | attr (obj : PyExpr) (field : String)
  | call (fn : String) (args : PyExprList) (kwargs : PyKwList)
  | method (obj : PyExpr) (name : String) (args : PyExprList) (kwargs : PyKwList)

/-- Positional-argument lists. -/
inductive PyExprList : Type where
  | nil
  | cons (e : PyExpr) (rest : PyExprList)

/-- Keyword-argument (and dictionary-entry) lists. -/
inductive PyKwList : Type where
  | nil
  | cons (key : String) (e : PyExpr) (rest : PyKwList)

end

/-- Assignment targets (lvalues): a plain name, an attribute of an object
expression, or a subscript (dictionary item) of an object expression. -/
inductive LValue : Type where
  | name (s : String)
  | attrOf (obj : PyExpr) (field : String)
  | itemOf (obj : PyExpr) (key : String)

/-- Statements of the fragment of Python the notebook uses.  Constructors
for guard, error-handling and concurrency constructs (`ifGuard`,
`assertStmt`, `raiseStmt`, `tryBlock`, `spawnThread`, `awaitStmt`,
`globalDecl`) are part of the language so that their absence from the
notebook is a meaningful statement; the notebook never uses them. -/
inductive PyStmt : Type where
  | assign (target : String) (e : PyExpr)
  | assignTuple (targets : List String) (e : PyExpr)
  | assignTo (lv : LValue) (e : PyExpr)
  | exprStmt (e : PyExpr)
  | importNames (names : List String)
  | magic (name : String)
  | ifGuard (cond : PyExpr)
  | assertStmt (cond : PyExpr)
  | raiseStmt (e : PyExpr)
  | tryBlock
  | spawnThread (e : PyExpr)
  | awaitStmt (e : PyExpr)
  | globalDecl (names : List String)

/-- Convert a Lean list of expressions into a positional-argument list. -/
def listToArgs : List PyExpr → PyExprList
  | [] => .nil
  | e :: r => .cons e (listToArgs r)

/-- Convert a Lean association list into a keyword-argument list. -/
def listToKw : List (String × PyExpr) → PyKwList
  | [] => .nil
  | (k, e) :: r => .cons k e (listToKw r)

/-! ## The notebook's code cells, translated statement by statement

Cell numbering follows the notebook's cell order (markdown cells skipped).
-/

/-- Cell: `import numpy as np`. -/
def cellImportNumpy : PyStmt := .importNames ["np"]

/-- Cell: the four `from qiskit...import` lines (Ignis rabi generator and
fitter, DriveChannel, assemble, MeasLevel/MeasReturnType). -/
def cellImportIgnis : List PyStmt :=
  [ .importNames ["rabi_schedules", "RabiFitter"]
  , .importNames ["DriveChannel"]
  , .importNames ["assemble"]
  , .importNames ["MeasLevel", "MeasReturnType"] ]

/-- Cell: imports of PulseSimulator, PulseSystemModel, FakeArmonk. -/
def cellImportAer : List PyStmt :=
  [ .importNames ["PulseSimulator"]
  , .importNames ["PulseSystemModel"]
  , .importNames ["FakeArmonk"] ]

/-- Cell: `armonk_backend = FakeArmonk()`. -/
def cellInstantiate : PyStmt :=
  .assign "armonk_backend" (.call "FakeArmonk" .nil .nil)

/-- The literal `4.97e9` as an exact rational. -/
def freqEstVal : ℚ := 4970000000

/-- The literal `6.35e7` as an exact rational. -/
def driveEstVal : ℚ := 63500000

/-- The literal `2.2222222222222221e-10` as an exact rational. -/
def dtVal : ℚ := 22222222222222221 / 10 ^ 26

/-- The expression `armonk_backend.defaults()`. -/
def defaultsExpr : PyExpr := .method (.var "armonk_backend") "defaults" .nil .nil

/-- The expression `armonk_backend.configuration()`. -/
def configurationExpr : PyExpr := .method (.var "armonk_backend") "configuration" .nil .nil

/-- The expression `armonk_backend.configuration().hamiltonian`. -/
def hamiltonianExpr : PyExpr := .attr configurationExpr "hamiltonian"

/-- Cell: the Hamiltonian-override cell.  Source:
```
freq_est = 4.97e9
drive_est = 6.35e7
armonk_backend.defaults().qubit_freq_est = [freq_est]
armonk_backend.configuration().hamiltonian['h_str']= ['wq0*0.5*(I0-Z0)', 'omegad0*X0||D0']
armonk_backend.configuration().hamiltonian['vars'] = {'wq0': 2 * np.pi * freq_est, 'omegad0': drive_est}
armonk_backend.configuration().hamiltonian['qub'] = {'0': 2}
armonk_backend.configuration().dt = 2.2222222222222221e-10
``` -/
def cellOverride : List PyStmt :=
  [ .assign "freq_est" (.num freqEstVal)
  , .assign "drive_est" (.num driveEstVal)
  , .assignTo (.attrOf defaultsExpr "qubit_freq_est")
      (.listLit (listToArgs [.var "freq_est"]))
  , .assignTo (.itemOf hamiltonianExpr "h_str")
      (.listLit (listToArgs [.str "wq0*0.5*(I0-Z0)", .str "omegad0*X0||D0"]))
  , .assignTo (.itemOf hamiltonianExpr "vars")
      (.dictLit (listToKw
        [ ("wq0", .binOp "*" (.binOp "*" (.num 2) (.attr (.var "np") "pi")) (.var "freq_est"))
        , ("omegad0", .var "drive_est") ]))
  , .assignTo (.itemOf hamiltonianExpr "qub")
      (.dictLit (listToKw [("0", .num 2)]))
  , .assignTo (.attrOf configurationExpr "dt") (.num dtVal) ]

/-- Cell: `armonk_model = PulseSystemModel.from_backend(armonk_backend)`. -/
def cellModel : PyStmt :=
  .assign "armonk_model"
    (.method (.var "PulseSystemModel") "from_backend"
      (listToArgs [.var "armonk_backend"]) .nil)

/-- The `rabi_schedules(...)` call of the schedule-construction cell, with
its keyword arguments in source order. -/
def rabiSchedulesCall : PyExpr :=
  .call "rabi_schedules" .nil
    (listToKw
      [ ("amp_list", .var "drive_amps")
      , ("qubits", .var "qubits")
      , ("pulse_width", .var "drive_duration")
      , ("pulse_sigma", .var "drive_sigma")
      , ("drives", .var "drive_channels")
      , ("inst_map", .attr defaultsExpr "instruction_schedule_map")
      , ("meas_map", .attr configurationExpr "meas_map") ])

/-- Cell: Rabi experiment parameters and schedule construction.  Source:
```
qubits = [0]
num_exps = 64
drive_amps = np.linspace(0, 1.0, num_exps)
drive_duration = 2048
drive_sigma = 256
drive_channels = [DriveChannel(0)]
rabi_schedules, xdata = rabi_schedules(amp_list=..., qubits=..., ...)
``` -/
def cellSchedules : List PyStmt :=
  [ .assign "qubits" (.listLit (listToArgs [.num 0]))
  , .assign "num_exps" (.num 64)
  , .assign "drive_amps"
      (.method (.var "np") "linspace" (listToArgs [.num 0, .num 1, .var "num_exps"]) .nil)
  , .assign "drive_duration" (.num 2048)
  , .assign "drive_sigma" (.num 256)
  , .assign "drive_channels"
      (.listLit (listToArgs [.call "DriveChannel" (listToArgs [.num 0]) .nil]))
  , .assignTuple ["rabi_schedules", "xdata"] rabiSchedulesCall ]

/-- The `assemble(...)` call of the assembly cell. -/
def assembleCall : PyExpr :=
  .call "assemble" (listToArgs [.var "rabi_schedules"])
    (listToKw
      [ ("backend", .var "backend_sim")
      , ("meas_level", .num 1)
      , ("meas_return", .str "avg")
      , ("shots", .num 512) ])

/-- Cell: `backend_sim = PulseSimulator()` and the `assemble` call. -/
def cellAssemble : List PyStmt :=
  [ .assign "backend_sim" (.call "PulseSimulator" .nil .nil)
  , .assign "rabi_qobj" assembleCall ]

/-- The expression `backend_sim.run(rabi_qobj, armonk_model)`. -/
def runCallExpr : PyExpr :=
  .method (.var "backend_sim") "run"
    (listToArgs [.var "rabi_qobj", .var "armonk_model"]) .nil

/-- The expression `backend_sim.run(rabi_qobj, armonk_model).result()`. -/
def simResultExpr : PyExpr := .method runCallExpr "result" .nil .nil

/-- Cell: `sim_result = backend_sim.run(rabi_qobj, armonk_model).result()`. -/
def cellRun : PyStmt := .assign "sim_result" simResultExpr

/-- The `RabiFitter(...)` constructor call. -/
def rabiFitterCall : PyExpr :=
  .call "RabiFitter" (listToArgs [.var "sim_result", .var "xdata", .var "qubits"])
    (listToKw [("fit_p0", .listLit (listToArgs [.num (3/2), .num 2, .num 0, .num 0]))])

/-- Cell: fitter construction, pi-amplitude extraction, plot, print. -/
def cellFit : List PyStmt :=
  [ .assign "rabi_fit" rabiFitterCall
  , .assign "pi_amp" (.method (.var "rabi_fit") "pi_amplitude" (listToArgs [.num 0]) .nil)
  , .exprStmt (.method (.var "rabi_fit") "plot" (listToArgs [.num 0]) .nil)
  , .exprStmt (.call "print"
      (listToArgs [.binOp "%" (.str "Pi Amp: %f") (.var "pi_amp")]) .nil) ]

/-- Cell: version-table footer (`import qiskit.tools.jupyter` and the two
jupyter magics). -/
def cellFooter : List PyStmt :=
  [ .importNames ["qiskit"]
  , .magic "qiskit_version_table"
  , .magic "qiskit_copyright" ]

/-- The notebook's executable content, top to bottom: the concatenation of
all code cells in their notebook order. -/
def notebookStmts : List PyStmt :=
  [cellImportNumpy] ++ cellImportIgnis ++ cellImportAer ++ [cellInstantiate]
    ++ cellOverride ++ [cellModel] ++ cellSchedules ++ cellAssemble
    ++ [cellRun] ++ cellFit ++ cellFooter

/-! ## Traversal functions over the embedded syntax -/

mutual

/-- All function and method names invoked anywhere inside an expression. -/
def exprCalls : PyExpr → List String
  | .var _ => []
  | .num _ => []
  | .str _ => []
  | .binOp _ a b => exprCalls a ++ exprCalls b
  | .listLit xs => argsCalls xs
  | .dictLit kvs => kwCalls kvs
  | .attr o _ => exprCalls o
  | .call f args kwargs => f :: (argsCalls args ++ kwCalls kwargs)
  | .method o m args kwargs => m :: (exprCalls o ++ argsCalls args ++ kwCalls kwargs)

/-- `exprCalls` over a positional-argument list. -/
def argsCalls : PyExprList → List String
  | .nil => []
  | .cons e r => exprCalls e ++ argsCalls r

/-- `exprCalls` over a keyword-argument list. -/
def kwCalls : PyKwList → List String
  | .nil => []
  | .cons _ e r => exprCalls e ++ kwCalls r

end

mutual

/-- All variable names read anywhere inside an expression.  A plain call
`f(...)` also reads the name `f`. -/
def exprReads : PyExpr → List String
  | .var s => [s]
  | .num _ => []
  | .str _ => []
  | .binOp _ a b => exprReads a ++ exprReads b
  | .listLit xs => argsReads xs
  | .dictLit kvs => kwReads kvs
  | .attr o _ => exprReads o
  | .call f args kwargs => f :: (argsReads args ++ kwReads kwargs)
  | .method o _ args kwargs => exprReads o ++ argsReads args ++ kwReads kwargs

/-- `exprReads` over a positional-argument list. -/
def argsReads : PyExprList → List String
  | .nil => []
  | .cons e r => exprReads e ++ argsReads r

/-- `exprReads` over a keyword-argument list. -/
def kwReads : PyKwList → List String
  | .nil => []
  | .cons _ e r => exprReads e ++ kwReads r

end

/-- Names read by an lvalue (the object being mutated is itself read). -/
def lvalReads : LValue → List String
  | .name _ => []
  | .attrOf o _ => exprReads o
  | .itemOf o _ => exprReads o

/-- Variable names read by a statement. -/
def stmtReads : PyStmt → List String
  | .assign _ e => exprReads e
  | .assignTuple _ e => exprReads e
  | .assignTo lv e => lvalReads lv ++ exprReads e
  | .exprStmt e => exprReads e
  | .importNames _ => []
  | .magic _ => []
  | .ifGuard c => exprReads c
  | .assertStmt c => exprReads c
  | .raiseStmt e => exprReads e
  | .tryBlock => []
  | .spawnThread e => exprReads e
  | .awaitStmt e => exprReads e
  | .globalDecl _ => []

/-- Variable names bound (written) by a statement.  Mutating an attribute
or item of an existing object binds no new name. -/
def stmtWrites : PyStmt → List String
  | .assign t _ => [t]
  | .assignTuple ts _ => ts
  | .assignTo lv _ =>
      match lv with
      | .name s => [s]
      | _ => []
  | .importNames ns => ns
  | _ => []

/-- Function and method names invoked by a statement. -/
def stmtCalls : PyStmt → List String
  | .assign _ e => exprCalls e
  | .assignTuple _ e => exprCalls e
  | .assignTo lv e =>
      (match lv with
       | .name _ => []
       | .attrOf o _ => exprCalls o
       | .itemOf o _ => exprCalls o) ++ exprCalls e
  | .exprStmt e => exprCalls e
  | .ifGuard c => exprCalls c
  | .assertStmt c => exprCalls c
  | .raiseStmt e => exprCalls e
  | .spawnThread e => exprCalls e
  | .awaitStmt e => exprCalls e
  | _ => []

/-- Forward-dataflow check: every name a statement reads was bound by an
earlier statement (or is among `env`, the initially available names).
This is the property that each value feeds only later statements. -/
def scopeCheckAux : List String → List PyStmt → Bool
  | _, [] => true
  | env, s :: rest =>
      (stmtReads s).all (fun v => env.contains v)
        && scopeCheckAux (env ++ stmtWrites s) rest

/-- The only name the notebook uses without binding it itself: the Python
builtin `print`. -/
def builtinNames : List String := ["print"]

/-- The notebook's statements pass the forward-dataflow check. -/
def notebookScopeOk : Bool := scopeCheckAux builtinNames notebookStmts

/-! ## The seven pipeline steps of the spec's flow description -/

/-- The seven steps of the spec's linear flow. -/
inductive StepTag : Type where
  | instantiate
  | mutateFields
  | buildModel
  | genSchedules
  | assembleQobj
  | runSim
  | fitAndPlot
deriving DecidableEq

/-- Classify a statement as one of the seven pipeline steps, or none.
Field mutations on the backend object (`assignTo`) are the mutation step;
the remaining steps are recognised by the library entry point they invoke. -/
def classifyStmt (s : PyStmt) : Option StepTag :=
  match s with
  | .assignTo _ _ => some .mutateFields
  | _ =>
      let ns := stmtCalls s
      if ns.contains "FakeArmonk" then some .instantiate
      else if ns.contains "from_backend" then some .buildModel
      else if ns.contains "rabi_schedules" then some .genSchedules
      else if ns.contains "assemble" then some .assembleQobj
      else if ns.contains "run" then some .runSim
      else if ns.contains "RabiFitter" || ns.contains "plot" then some .fitAndPlot
      else none

/-- Collapse consecutive equal elements. -/
def dedupConsec : List StepTag → List StepTag
  | [] => []
  | [a] => [a]
  | a :: b :: r => if a = b then dedupConsec (b :: r) else a :: dedupConsec (b :: r)

/-- The notebook's statements, each mapped to its pipeline step (statements
belonging to no step dropped). -/
def notebookStepsRaw : List StepTag := notebookStmts.filterMap classifyStmt

/-- The notebook's pipeline steps with consecutive duplicates (the five
field-mutation statements of the single override cell, and the two
statements of the fit-and-plot cell) collapsed. -/
def notebookSteps : List StepTag := dedupConsec notebookStepsRaw

/-! ## State model of the mock backend object

The `FakeArmonk` object itself lives in the external library; the notebook
reads and mutates it through `defaults()` / `configuration()`.  We model
the fields the notebook touches exactly, and keep representative further
fields so that the frame effect (everything else unchanged) is a real
statement. -/

/-- Symbolic numeric values: exact rationals, the constant `np.pi`, and
products, mirroring the source expression `2 * np.pi * freq_est`. -/
inductive NumVal : Type where
  | rat (q : ℚ)
  | pi
  | mul (a b : NumVal)
deriving DecidableEq

/-- The backend configuration's `hamiltonian` dictionary. -/
structure HamiltonianDict : Type where
  h_str : List String
  vars : List (String × NumVal)
  qub : List (String × ℚ)
  osc : List (String × ℚ)
  description : String

/-- The object returned by `armonk_backend.configuration()`. -/
structure BackendConfiguration : Type where
  hamiltonian : HamiltonianDict
  dt : ℚ
  dtm : ℚ
  meas_map : List (List ℕ)
  n_qubits : ℕ
  meas_levels : List ℕ
  backend_name : String

/-- The object returned by `armonk_backend.defaults()`.  The instruction
schedule map and pulse library are opaque library objects; only their
identity matters here, so they are modelled as opaque handles. -/
structure BackendDefaults : Type where
  qubit_freq_est : List NumVal
  meas_freq_est : List NumVal
  instruction_schedule_map : ℕ
  pulse_library : ℕ

/-- The mock backend object: its configuration and defaults sub-objects. -/
structure FakeArmonkBackend : Type where
  configuration : BackendConfiguration
  defaults : BackendDefaults

/-- The value `['wq0*0.5*(I0-Z0)', 'omegad0*X0||D0']` assigned to
`hamiltonian['h_str']`. -/
def hStrOverride : List String := ["wq0*0.5*(I0-Z0)", "omegad0*X0||D0"]

/-- The value `{'wq0': 2 * np.pi * freq_est, 'omegad0': drive_est}`
assigned to `hamiltonian['vars']`, with the product kept symbolic. -/
def varsOverride : List (String × NumVal) :=
  [ ("wq0", NumVal.mul (NumVal.mul (NumVal.rat 2) NumVal.pi) (NumVal.rat freqEstVal))
  , ("omegad0", NumVal.rat driveEstVal) ]

/-- The value `{'0': 2}` assigned to `hamiltonian['qub']`. -/
def qubOverride : List (String × ℚ) := [("0", 2)]

/-- The semantics of the Hamiltonian-override cell on the backend state:
the five field assignments of `cellOverride`, in source order. -/
def overrideCell (b : FakeArmonkBackend) : FakeArmonkBackend :=
  let b := { b with defaults := { b.defaults with qubit_freq_est := [NumVal.rat freqEstVal] } }
  let b := { b with configuration := { b.configuration with
              hamiltonian := { b.configuration.hamiltonian with h_str := hStrOverride } } }
  let b := { b with configuration := { b.configuration with
              hamiltonian := { b.configuration.hamiltonian with vars := varsOverride } } }
  let b := { b with configuration := { b.configuration with
              hamiltonian := { b.configuration.hamiltonian with qub := qubOverride } } }
  { b with configuration := { b.configuration with dt := dtVal } }

/-! ## Observation semantics of the notebook

An interpreter over the embedded statements that tracks the numeric
environment and the state of the one mutable object (`armonk_backend`),
and records the backend state observed by the two library calls that read
it: `PulseSystemModel.from_backend` and `rabi_schedules`. -/

/-- Evaluate a numeric expression in an environment of numeric variables.
`np.pi` evaluates to the symbolic constant; multiplication stays
symbolic. -/
def evalNum (env : List (String × NumVal)) : PyExpr → Option NumVal
  | .num q => some (.rat q)
  | .attr (.var "np") "pi" => some .pi
  | .binOp "*" a b =>
      match evalNum env a, evalNum env b with
      | some x, some y => some (.mul x y)
      | _, _ => none
  | .var s => (env.find? (fun p => p.1 == s)).map Prod.snd
  | _ => none

/-- Evaluate a list literal of numeric expressions. -/
def evalNumList (env : List (String × NumVal)) : PyExprList → Option (List NumVal)
  | .nil => some []
  | .cons e r =>
      match evalNum env e, evalNumList env r with
      | some v, some vs => some (v :: vs)
      | _, _ => none

/-- Evaluate a list literal of string expressions. -/
def evalStrList : PyExprList → Option (List String)
  | .nil => some []
  | .cons (.str s) r => (evalStrList r).map (fun ss => s :: ss)
  | .cons _ _ => none

/-- Evaluate a dictionary literal with numeric-expression values. -/
def evalNumDict (env : List (String × NumVal)) : PyKwList → Option (List (String × NumVal))
  | .nil => some []
  | .cons k e r =>
      match evalNum env e, evalNumDict env r with
      | some v, some vs => some ((k, v) :: vs)
      | _, _ => none

/-- Evaluate a dictionary literal whose values are rational literals. -/
def evalRatDict (env : List (String × NumVal)) : PyKwList → Option (List (String × ℚ))
  | .nil => some []
  | .cons k e r =>
      match evalNum env e, evalRatDict env r with
      | some (.rat q), some vs => some ((k, q) :: vs)
      | _, _ => none

/-- Apply one `assignTo` mutation to the backend state.  Each arm matches
one of the lvalue shapes the notebook uses on `armonk_backend`; an
assignment that does not match, or whose right-hand side does not
evaluate, leaves the state unchanged. -/
def applyMutation (env : List (String × NumVal)) (b : FakeArmonkBackend) :
    LValue → PyExpr → FakeArmonkBackend
  | .attrOf (.method (.var "armonk_backend") "defaults" .nil .nil) "qubit_freq_est", e =>
      match e with
      | .listLit xs =>
          match evalNumList env xs with
          | some vs => { b with defaults := { b.defaults with qubit_freq_est := vs } }
          | none => b
      | _ => b
  | .itemOf (.attr (.method (.var "armonk_backend") "configuration" .nil .nil) "hamiltonian") key, e =>
      (match key, e with
       | "h_str", .listLit xs =>
          match evalStrList xs with
          | some ss => { b with configuration := { b.configuration with
                          hamiltonian := { b.configuration.hamiltonian with h_str := ss } } }
          | none => b
       | "vars", .dictLit kvs =>
          match evalNumDict env kvs with
          | some vs => { b with configuration := { b.configuration with
                          hamiltonian := { b.configuration.hamiltonian with vars := vs } } }
          | none => b
       | "qub", .dictLit kvs =>
          match evalRatDict env kvs with
          | some vs => { b with configuration := { b.configuration with
                          hamiltonian := { b.configuration.hamiltonian with qub := vs } } }
          | none => b
       | _, _ => b)
  | .attrOf (.method (.var "armonk_backend") "configuration" .nil .nil) "dt", e =>
      match evalNum env e with
      | some (.rat q) => { b with configuration := { b.configuration with dt := q } }
      | _ => b
  | _, _ => b

/-- The interpreter's observation state: the numeric environment, the
backend object (once instantiated), and the backend state snapshotted at
the `from_backend` and `rabi_schedules` calls. -/
structure NotebookObs : Type where
  env : List (String × NumVal)
  backend : Option FakeArmonkBackend
  modelSource : Option FakeArmonkBackend
  scheduleSource : Option FakeArmonkBackend

/-- The observation state before the first statement runs. -/
def initialObs : NotebookObs :=
  { env := [], backend := none, modelSource := none, scheduleSource := none }

/-- One step of the observation semantics.  `init` is the backend state
the external `FakeArmonk()` constructor returns. -/
def stepNotebook (init : FakeArmonkBackend) (s : NotebookObs) : PyStmt → NotebookObs
  | .assign x e =>
      match e with
      | .call "FakeArmonk" .nil .nil => { s with backend := some init }
      | .method (.var "PulseSystemModel") "from_backend"
          (.cons (.var "armonk_backend") .nil) .nil =>
          { s with modelSource := s.backend }
      | _ =>
          match evalNum s.env e with
          | some v => { s with env := (x, v) :: s.env }
          | none => s
  | .assignTuple _ e =>
      match e with
      | .call "rabi_schedules" _ _ => { s with scheduleSource := s.backend }
      | _ => s
  | .assignTo lv e =>
      { s with backend := s.backend.map (fun b => applyMutation s.env b lv e) }
  | _ => s

/-- Run the whole notebook under the observation semantics. -/
def runNotebook (init : FakeArmonkBackend) : NotebookObs :=
  notebookStmts.foldl (stepNotebook init) initialObs

/-! ## The amplitude sweep

`drive_amps = np.linspace(0, 1.0, num_exps)` with `num_exps = 64`. -/

/-- Models `numpy.linspace(start, stop, num)` with the default
`endpoint=True`: `num` evenly spaced samples over the closed interval
`[start, stop]`, i.e. `start + i * (stop - start) / (num - 1)` for
`i = 0, ..., num - 1`.  Exact rationals stand in for the floats. -/
def np_linspace (start stop : ℚ) (num : ℕ) : List ℚ :=
  if num = 0 then []
  else if num = 1 then [start]
  else (List.range num).map (fun i => start + i * ((stop - start) / (num - 1)))

/-- `num_exps = 64` from the schedule-construction cell. -/
def num_exps : ℕ := 64

/-- `drive_amps = np.linspace(0, 1.0, num_exps)` from the
schedule-construction cell. -/
def drive_amps : List ℚ := np_linspace 0 1 num_exps

/-- Successive differences of a list are all equal to `d`. -/
def evenlySpaced (l : List ℚ) (d : ℚ) : Bool :=
  (l.zip l.tail).all (fun p => p.2 - p.1 == d)

/-! ## Shape predicates used by the claims -/

/-- Whether an expression is (directly) a call of the method `run`. -/
def isRunCall : PyExpr → Bool
  | .method _ "run" _ _ => true
  | _ => false

/-- Whether a statement is an error-handling or input-validation
construct: a `try` block, an `assert`, a `raise`, or a guarding `if`. -/
def stmtIsGuardOrHandler : PyStmt → Bool
  | .ifGuard _ => true
  | .assertStmt _ => true
  | .raiseStmt _ => true
  | .tryBlock => true
  | _ => false

/-- Whether a statement is a concurrency construct: thread spawning,
awaiting, or declaring use of interpreter-global shared state. -/
def stmtIsConcurrency : PyStmt → Bool
  | .spawnThread _ => true
  | .awaitStmt _ => true
  | .globalDecl _ => true
  | _ => false

/-- The root variable of an object expression: the name at the head of its
attribute/method/subscript spine. -/
def exprRoot : PyExpr → Option String
  | .var s => some s
  | .attr o _ => exprRoot o
  | .method o _ _ _ => exprRoot o
  | _ => none

/-- The root variable of an lvalue that mutates an existing object. -/
def lvalRoot : LValue → Option String
  | .name _ => none
  | .attrOf o _ => exprRoot o
  | .itemOf o _ => exprRoot o

/-- Every object mutation (`assignTo`) targets an object rooted at a
variable previously bound by a plain notebook assignment (not an import):
mutations touch only objects reachable from the notebook's own local
variables. -/
def mutationsLocal : List String → List PyStmt → Bool
  | _, [] => true
  | locals, .assign x _ :: rest => mutationsLocal (x :: locals) rest
  | locals, .assignTuple xs _ :: rest => mutationsLocal (xs ++ locals) rest
  | locals, .assignTo lv _ :: rest =>
      (match lvalRoot lv with
       | some v => locals.contains v
       | none => false) && mutationsLocal locals rest
  | locals, _ :: rest => mutationsLocal locals rest

/-- Whether a statement is an object mutation (`assignTo`). -/
def stmtIsMutation : PyStmt → Bool
  | .assignTo _ _ => true
  | _ => false

/-- Whether a statement is a bare `...plot(...)` method-call statement. -/
def stmtIsPlotCall : PyStmt → Bool
  | .exprStmt (.method _ "plot" _ _) => true
  | _ => false

/-- Statements binding a given variable name. -/
def stmtsBinding (x : String) : List PyStmt :=
  notebookStmts.filter (fun s => (stmtWrites s).contains x)

/-- A concrete backend state standing in for the object the external
`FakeArmonk()` constructor returns (pre-override values as the mock
device reports them; the exact numbers are irrelevant to the theorems,
which hold for every initial state). -/
def sampleBackend : FakeArmonkBackend :=
  { configuration :=
      { hamiltonian :=
          { h_str := ["wq0*(I0-Z0)/2", "omegad0*X0||D0"]
          , vars := [("wq0", NumVal.rat 31), ("omegad0", NumVal.rat 1)]
          , qub := [("0", 3)]
          , osc := []
          , description := "A Hamiltonian for a fully controllable qubit." }
      , dt := 1 / 4500000000
      , dtm := 1 / 4500000000
      , meas_map := [[0]]
      , n_qubits := 1
      , meas_levels := [1, 2]
      , backend_name := "fake_armonk" }
  , defaults :=
      { qubit_freq_est := [NumVal.rat 4974000000]
      , meas_freq_est := [NumVal.rat 6993000000]
      , instruction_schedule_map := 0
      , pulse_library := 1 } }

/-! ## Claim theorems -/

/-- C1: Run top to bottom, the notebook's executable content performs
exactly the seven pipeline steps — instantiate `FakeArmonk`, mutate its
numeric fields, `PulseSystemModel.from_backend`, `rabi_schedules`,
`assemble`, `PulseSimulator.run`, `RabiFitter` construction and `plot` —
in this order, none repeated, skipped or reordered (the mutation step
consists of the five consecutive field assignments of the single override
cell, and the fit step of the fitter cell's consecutive statements), and
every name each statement reads was bound by an earlier statement, so each
step's output feeds only later steps. -/
theorem notebook_linear_pipeline :
    notebookStepsRaw =
      [.instantiate, .mutateFields, .mutateFields, .mutateFields, .mutateFields,
       .mutateFields, .buildModel, .genSchedules, .assembleQobj, .runSim,
       .fitAndPlot, .fitAndPlot] ∧
    notebookSteps =
      [.instantiate, .mutateFields, .buildModel, .genSchedules, .assembleQobj,
       .runSim, .fitAndPlot] ∧
    notebookScopeOk = true :=
  ⟨rfl, rfl, rfl⟩

/-- C2: The override cell mutates exactly five fields of the mock backend
— `defaults().qubit_freq_est`, `hamiltonian['h_str']`,
`hamiltonian['vars']`, `hamiltonian['qub']` and `configuration().dt` —
(they are the notebook's only object mutations), and every other field of
the configuration and defaults is left unchanged, for every initial
backend state. -/
theorem override_mutates_exactly_five_fields (b : FakeArmonkBackend) :
    notebookStmts.filter stmtIsMutation = cellOverride.drop 2 ∧
    (notebookStmts.filter stmtIsMutation).length = 5 ∧
    (overrideCell b).defaults.qubit_freq_est = [NumVal.rat 4970000000] ∧
    (overrideCell b).configuration.hamiltonian.h_str = hStrOverride ∧
    (overrideCell b).configuration.hamiltonian.vars = varsOverride ∧
    (overrideCell b).configuration.hamiltonian.qub = [("0", 2)] ∧
    (overrideCell b).configuration.dt = 22222222222222221 / 10 ^ 26 ∧
    (overrideCell b).configuration.hamiltonian.osc = b.configuration.hamiltonian.osc ∧
    (overrideCell b).configuration.hamiltonian.description
      = b.configuration.hamiltonian.description ∧
    (overrideCell b).configuration.dtm = b.configuration.dtm ∧
    (overrideCell b).configuration.meas_map = b.configuration.meas_map ∧
    (overrideCell b).configuration.n_qubits = b.configuration.n_qubits ∧
    (overrideCell b).configuration.meas_levels = b.configuration.meas_levels ∧
    (overrideCell b).configuration.backend_name = b.configuration.backend_name ∧
    (overrideCell b).defaults.meas_freq_est = b.defaults.meas_freq_est ∧
    (overrideCell b).defaults.instruction_schedule_map
      = b.defaults.instruction_schedule_map ∧
    (overrideCell b).defaults.pulse_library = b.defaults.pulse_library :=
  ⟨rfl, rfl, rfl, rfl, rfl, rfl, rfl, rfl, rfl, rfl, rfl, rfl, rfl, rfl, rfl, rfl, rfl⟩

/-- C2 witness: the frame-effect theorem evaluated at the concrete
pre-override backend state `sampleBackend`. -/
theorem override_mutates_exactly_five_fields_witness :
    notebookStmts.filter stmtIsMutation = cellOverride.drop 2 ∧
    (notebookStmts.filter stmtIsMutation).length = 5 ∧
    (overrideCell sampleBackend).defaults.qubit_freq_est = [NumVal.rat 4970000000] ∧
    (overrideCell sampleBackend).configuration.hamiltonian.h_str = hStrOverride ∧
    (overrideCell sampleBackend).configuration.hamiltonian.vars = varsOverride ∧
    (overrideCell sampleBackend).configuration.hamiltonian.qub = [("0", 2)] ∧
    (overrideCell sampleBackend).configuration.dt = 22222222222222221 / 10 ^ 26 ∧
    (overrideCell sampleBackend).configuration.hamiltonian.osc
      = sampleBackend.configuration.hamiltonian.osc ∧
    (overrideCell sampleBackend).configuration.hamiltonian.description
      = sampleBackend.configuration.hamiltonian.description ∧
    (overrideCell sampleBackend).configuration.dtm = sampleBackend.configuration.dtm ∧
    (overrideCell sampleBackend).configuration.meas_map
      = sampleBackend.configuration.meas_map ∧
    (overrideCell sampleBackend).configuration.n_qubits
      = sampleBackend.configuration.n_qubits ∧
    (overrideCell sampleBackend).configuration.meas_levels
      = sampleBackend.configuration.meas_levels ∧
    (overrideCell sampleBackend).configuration.backend_name
      = sampleBackend.configuration.backend_name ∧
    (overrideCell sampleBackend).defaults.meas_freq_est
      = sampleBackend.defaults.meas_freq_est ∧
    (overrideCell sampleBackend).defaults.instruction_schedule_map
      = sampleBackend.defaults.instruction_schedule_map ∧
    (overrideCell sampleBackend).defaults.pulse_library
      = sampleBackend.defaults.pulse_library :=
  override_mutates_exactly_five_fields sampleBackend

/-- C3 counterexample: the claim that the simulator's `run` method itself
returns the result object is false on the code: the unique statement
binding `sim_result` assigns it the expression
`backend_sim.run(rabi_qobj, armonk_model).result()`, whose outermost call
is the job's `result` method, not `run` — so `sim_result` is not the value
returned by `run`. -/
theorem sim_result_not_direct_run_value :
    stmtsBinding "sim_result" = [.assign "sim_result" simResultExpr] ∧
    isRunCall simResultExpr = false :=
  ⟨rfl, rfl⟩

/-- C3 (amended): `run` is called with the assembled qobj and the physical
model and returns a job handle, whose `result` method the notebook invokes
immediately within the same expression, so `sim_result` holds the result
as soon as the statement completes, with no separate polling step written
in the notebook. -/
theorem run_then_result_synchronous :
    stmtsBinding "sim_result" =
      [.assign "sim_result"
        (.method
          (.method (.var "backend_sim") "run"
            (.cons (.var "rabi_qobj") (.cons (.var "armonk_model") .nil)) .nil)
          "result" .nil .nil)] :=
  rfl

/-- C4: The schedule-generation call passes the amplitude sweep
(`amp_list=drive_amps`), the qubit list (`qubits`), the pulse shape
parameters (`pulse_width=drive_duration`, `pulse_sigma=drive_sigma`) and
the instruction map (`inst_map=armonk_backend.defaults().
instruction_schedule_map`), and its value is destructured into the pair
`(rabi_schedules, xdata)`; `xdata` is then read by the `RabiFitter`
constructor call. -/
theorem rabi_schedules_call_interface :
    stmtsBinding "xdata" =
      [.assignTuple ["rabi_schedules", "xdata"]
        (.call "rabi_schedules" .nil
          (.cons "amp_list" (.var "drive_amps")
            (.cons "qubits" (.var "qubits")
              (.cons "pulse_width" (.var "drive_duration")
                (.cons "pulse_sigma" (.var "drive_sigma")
                  (.cons "drives" (.var "drive_channels")
                    (.cons "inst_map"
                      (.attr (.method (.var "armonk_backend") "defaults" .nil .nil)
                        "instruction_schedule_map")
                      (.cons "meas_map"
                        (.attr (.method (.var "armonk_backend") "configuration" .nil .nil)
                          "meas_map") .nil))))))))] ∧
    (exprReads rabiFitterCall).contains "xdata" = true :=
  ⟨rfl, rfl⟩

/-- C5: The assembly call passes the generated schedules
(`rabi_schedules`), the `PulseSimulator` instance as `backend`, and the
measurement options `meas_level=1`, `meas_return='avg'`, `shots=512`; its
value is bound to `rabi_qobj`, which the run statement then reads. -/
theorem assemble_call_interface :
    stmtsBinding "rabi_qobj" =
      [.assign "rabi_qobj"
        (.call "assemble" (.cons (.var "rabi_schedules") .nil)
          (.cons "backend" (.var "backend_sim")
            (.cons "meas_level" (.num 1)
              (.cons "meas_return" (.str "avg")
                (.cons "shots" (.num 512) .nil)))))] ∧
    (stmtReads cellRun).contains "rabi_qobj" = true :=
  ⟨rfl, rfl⟩

/-- C6: The fitter is constructed as
`RabiFitter(sim_result, xdata, qubits, fit_p0=[1.5, 2, 0, 0])`, and the
constructed object's `pi_amplitude` and `plot` methods are each called
with qubit index 0. -/
theorem rabi_fitter_interface :
    stmtsBinding "rabi_fit" =
      [.assign "rabi_fit"
        (.call "RabiFitter"
          (.cons (.var "sim_result") (.cons (.var "xdata") (.cons (.var "qubits") .nil)))
          (.cons "fit_p0"
            (.listLit (.cons (.num (3/2))
              (.cons (.num 2) (.cons (.num 0) (.cons (.num 0) .nil)))))
            .nil))] ∧
    stmtsBinding "pi_amp" =
      [.assign "pi_amp"
        (.method (.var "rabi_fit") "pi_amplitude" (.cons (.num 0) .nil) .nil)] ∧
    notebookStmts.filter stmtIsPlotCall =
      [.exprStmt (.method (.var "rabi_fit") "plot" (.cons (.num 0) .nil) .nil)] :=
  ⟨rfl, rfl, rfl⟩

/-- C7: No statement of the notebook is an exception handler, an assert,
a raise, or a guarding conditional: every library call's exceptions
propagate unhandled, and no notebook-authored check rejects an input
before a call. -/
theorem no_error_handling_or_validation :
    notebookStmts.all (fun s => !(stmtIsGuardOrHandler s)) = true :=
  rfl

/-- C8: The notebook is a single linear statement sequence containing no
concurrency construct (no thread spawning, awaiting, or global-state
declaration), and every object mutation it performs targets an object
rooted at a variable the notebook itself bound by a local assignment. -/
theorem no_concurrency_and_local_mutations :
    notebookStmts.all (fun s => !(stmtIsConcurrency s)) = true ∧
    mutationsLocal [] notebookStmts = true :=
  ⟨rfl, rfl⟩

/-- C9: `num_exps` is 64 and `drive_amps = np.linspace(0, 1.0, num_exps)`
contains exactly 64 values, the first exactly 0 (so the first Rabi
experiment is driven at zero amplitude), the last exactly 1, with all
successive differences equal to `1/63` (evenly spaced over the closed
interval from 0 to 1). -/
theorem drive_amps_even_sweep :
    stmtsBinding "num_exps" = [.assign "num_exps" (.num 64)] ∧
    stmtsBinding "drive_amps" =
      [.assign "drive_amps"
        (.method (.var "np") "linspace"
          (.cons (.num 0) (.cons (.num 1) (.cons (.var "num_exps") .nil))) .nil)] ∧
    drive_amps.length = 64 ∧
    drive_amps.head? = some 0 ∧
    drive_amps.getLast? = some 1 ∧
    List.Chain' (fun x y => y - x = 1/63) drive_amps := by
  refine ⟨rfl, rfl, ?_, ?_, ?_, ?_⟩ <;>
    norm_num [drive_amps, np_linspace, num_exps, List.range_succ, List.chain'_cons]

/-- C10: Running the notebook from any initial backend state, the backend
state the `PulseSystemModel.from_backend` call reads and the backend state
the `rabi_schedules` call reads its `instruction_schedule_map` and
`meas_map` from are both exactly the state produced by the five-field
override — so the model and the schedules are mutually consistent with the
overridden values: `qubit_freq_est = [4.97e9]`,
`vars = {wq0: 2*pi*4.97e9, omegad0: 6.35e7}` and
`dt = 2.2222222222222221e-10`. -/
theorem pipeline_single_overridden_backend (init : FakeArmonkBackend) :
    (runNotebook init).modelSource = some (overrideCell init) ∧
    (runNotebook init).scheduleSource = some (overrideCell init) ∧
    (overrideCell init).defaults.qubit_freq_est = [NumVal.rat 4970000000] ∧
    (overrideCell init).configuration.hamiltonian.vars =
      [ ("wq0", NumVal.mul (NumVal.mul (NumVal.rat 2) NumVal.pi) (NumVal.rat 4970000000))
      , ("omegad0", NumVal.rat 63500000) ] ∧
    (overrideCell init).configuration.dt = 22222222222222221 / 10 ^ 26 :=
  ⟨rfl, rfl, rfl, rfl, rfl⟩

/-- C10 witness: the consistency theorem evaluated at the concrete initial
backend state `sampleBackend`. -/
theorem pipeline_single_overridden_backend_witness :
    (runNotebook sampleBackend).modelSource = some (overrideCell sampleBackend) ∧
    (runNotebook sampleBackend).scheduleSource = some (overrideCell sampleBackend) ∧
    (overrideCell sampleBackend).defaults.qubit_freq_est = [NumVal.rat 4970000000] ∧
    (overrideCell sampleBackend).configuration.hamiltonian.vars =
      [ ("wq0", NumVal.mul (NumVal.mul (NumVal.rat 2) NumVal.pi) (NumVal.rat 4970000000))
      , ("omegad0", NumVal.rat 63500000) ] ∧
    (overrideCell sampleBackend).configuration.dt = 22222222222222221 / 10 ^ 26 :=
  pipeline_single_overridden_backend sampleBackend
